import Mathlib

/-!
Verification of the JSON normalization layer of the `unifi` Go client
library (Station and Device decoders).

The development shallow-embeds the decoders `Station.UnmarshalJSON`
(stations.go) and `Device.UnmarshalJSON` (devices.go) together with the
Go standard-library routines they call (`net.ParseMAC`, `net.ParseIP`,
`strconv.ParseFloat`/`ParseInt` as used by `encoding/json`'s `,string`
struct tags, `time.Unix`).  Wire structures mirror the raw structs
`station` and `device`: a field that the decoder never reads is omitted,
since it cannot influence any decoded value; absent JSON keys are the
Go zero value of the field (the structure defaults below), except for
the `,string`-tagged numeric fields where an absent key and a present
string behave differently and are therefore modelled with `Option`.

Go `int`/`int64` values are modelled as `Int`: the decoders only copy
or scale (by 10^9) values decoded from JSON and no claim involves
inputs anywhere near 2^63, so wrap-around is never observable here.
JSON numbers (Go `float64` wire fields) are modelled as exact `Rat`
values; the decoders only copy them, never compute with them.
-/

/-- Hex digit value, as accepted by Go's `net` hex scanners
(`0-9`, `a-f`, `A-F`). -/
def hexDigitVal (c : Char) : Option Nat :=
  if '0' ≤ c ∧ c ≤ '9' then some (c.toNat - '0'.toNat)
  else if 'a' ≤ c ∧ c ≤ 'f' then some (c.toNat - 'a'.toNat + 10)
  else if 'A' ≤ c ∧ c ≤ 'F' then some (c.toNat - 'A'.toNat + 10)
  else none

/-- Loop of Go `net.xtoi`: consume hex digits accumulating `n`,
failing (`ok = false`) when the accumulator reaches the cap `0xFFFFFF`
or when no digit was consumed.  Returns `(value, digits consumed)`. -/
def xtoiLoop : List Char → Nat → Nat → Option (Nat × Nat)
  | [], n, i => if i = 0 then none else some (n, i)
  | c :: rest, n, i =>
    match hexDigitVal c with
    | none => if i = 0 then none else some (n, i)
    | some d =>
      let n2 := 16 * n + d
      if n2 ≥ 0xFFFFFF then none else xtoiLoop rest n2 (i + 1)

/-- Go `net.xtoi`: hexadecimal prefix scan. -/
def xtoi (s : List Char) : Option (Nat × Nat) := xtoiLoop s 0 0

/-- Go `net.xtoi2 s e`: convert the first two characters of `s` as a hex
byte, requiring the third character (when present) to equal `e`. -/
def xtoi2 (s : List Char) (e : Char) : Option Nat :=
  if s.length > 2 ∧ s[2]? ≠ some e then none
  else
    match xtoi (s.take 2) with
    | some (n, 2) => some n
    | _ => none

/-- Loop of Go `net.dtoi`: consume decimal digits accumulating `n`,
failing at the cap `0xFFFFFF` or when no digit was consumed. -/
def dtoiLoop : List Char → Nat → Nat → Option (Nat × Nat)
  | [], n, i => if i = 0 then none else some (n, i)
  | c :: rest, n, i =>
    if '0' ≤ c ∧ c ≤ '9' then
      let n2 := 10 * n + (c.toNat - '0'.toNat)
      if n2 ≥ 0xFFFFFF then none else dtoiLoop rest n2 (i + 1)
    else if i = 0 then none else some (n, i)

/-- Go `net.dtoi`: decimal prefix scan, `(value, digits consumed)`. -/
def dtoi (s : List Char) : Option (Nat × Nat) := dtoiLoop s 0 0

/-- Go `net.AddrError` as returned by `net.ParseMAC`. -/
structure AddrError where
  err : String
  addr : String
deriving DecidableEq, Repr

/-- Group loop of Go `net.ParseMAC` for `:`/`-` separated forms: parse
`k` hex-byte groups of `cs`, each group followed by the separator
`sep` (checked inside `xtoi2` on all but the final group). -/
def macGroups : Nat → List Char → Char → Option (List Nat)
  | 0, _, _ => some []
  | k + 1, cs, sep =>
    match xtoi2 cs sep with
    | none => none
    | some b =>
      match macGroups k (cs.drop 3) sep with
      | none => none
      | some rest => some (b :: rest)

/-- Group loop of Go `net.ParseMAC` for the `.`-separated form: parse
`k` four-hex-digit groups, two bytes per group, dot-separated. -/
def macDotGroups : Nat → List Char → Option (List Nat)
  | 0, _ => some []
  | k + 1, cs =>
    match xtoi2 (cs.take 2) (Char.ofNat 0), xtoi2 (cs.drop 2) '.' with
    | some b1, some b2 =>
      match macDotGroups k (cs.drop 5) with
      | none => none
      | some rest => some (b1 :: b2 :: rest)
    | _, _ => none

/-- Go `net.ParseMAC`: accepts 6-, 8- or 20-byte hardware addresses in
colon-, hyphen- or dot-separated hexadecimal forms (hex digits of
either case); anything else yields `AddrError "invalid MAC address"`. -/
def goParseMAC (s : String) : Except AddrError (List Nat) :=
  let cs := s.data
  let fail : Except AddrError (List Nat) := .error ⟨"invalid MAC address", s⟩
  if cs.length < 14 then fail
  else if cs[2]? = some ':' ∨ cs[2]? = some '-' then
    if (cs.length + 1) % 3 ≠ 0 then fail
    else
      let n := (cs.length + 1) / 3
      if ¬(n = 6 ∨ n = 8 ∨ n = 20) then fail
      else
        match cs[2]? with
        | some sep =>
          match macGroups n cs sep with
          | some hw => .ok hw
          | none => fail
        | none => fail
  else if cs[4]? = some '.' then
    if (cs.length + 1) % 5 ≠ 0 then fail
    else
      let n := 2 * ((cs.length + 1) / 5)
      if ¬(n = 6 ∨ n = 8 ∨ n = 20) then fail
      else
        match macDotGroups (n / 2) cs with
        | some hw => .ok hw
        | none => fail
  else fail

/-- The 12-byte prefix Go uses to store an IPv4 address inside a
16-byte `net.IP` (`net.v4InV6Prefix`). -/
def v4InV6Prefix : List Nat := [0, 0, 0, 0, 0, 0, 0, 0, 0, 0, 0xff, 0xff]

/-- Loop of Go `net.parseIPv4`: parse `k` dot-separated decimal octets;
`needDot` records whether a `.` separator must be consumed first (true
for every field but the first).  Returns the octets and the unconsumed
remainder of the input. -/
def parseIPv4Loop : Nat → List Char → Bool → Option (List Nat × List Char)
  | 0, s, _ => some ([], s)
  | k + 1, s, needDot =>
    if s.isEmpty then none
    else
      let s2? : Option (List Char) :=
        if needDot then (if s.head? = some '.' then some (s.drop 1) else none)
        else some s
      match s2? with
      | none => none
      | some s2 =>
        match dtoi s2 with
        | none => none
        | some (n, c) =>
          if n > 0xFF then none
          else
            match parseIPv4Loop k (s2.drop c) true with
            | none => none
            | some (rest, fin) => some (n :: rest, fin)

/-- Go `net.parseIPv4` (octet part): four decimal fields, whole string
consumed; yields the 4 octets. -/
def goParseIPv4 (s : List Char) : Option (List Nat) :=
  match parseIPv4Loop 4 s false with
  | some (p, []) => some p
  | _ => none

/-- Loop of Go `net.parseIPv6`: `acc` is the bytes written so far,
`ell` the recorded ellipsis (`::`) byte position.  Mirrors the Go loop
body exactly; `fuel` bounds the iterations (each iteration appends at
least two bytes and the loop exits at 16, so fuel 8 is never
exhausted early). -/
def ipv6Body : Nat → List Char → List Nat → Option Nat →
    Option (List Char × List Nat × Option Nat)
  | 0, s, acc, ell => some (s, acc, ell)
  | fuel + 1, s, acc, ell =>
    if 16 ≤ acc.length then some (s, acc, ell)
    else
      match xtoi s with
      | none => none
      | some (n, c) =>
        if n > 0xFFFF then none
        else if s[c]? = some '.' then
          if ell = none ∧ acc.length ≠ 12 then none
          else if acc.length + 4 > 16 then none
          else
            match goParseIPv4 s with
            | none => none
            | some p4 => some ([], acc ++ p4, ell)
        else
          let acc2 := acc ++ [n / 256, n % 256]
          let s2 := s.drop c
          if s2 = [] then some ([], acc2, ell)
          else if s2.head? ≠ some ':' ∨ s2.length = 1 then none
          else
            let s3 := s2.drop 1
            if s3.head? = some ':' then
              if ell.isSome then none
              else
                let s4 := s3.drop 1
                if s4 = [] then some ([], acc2, some acc2.length)
                else ipv6Body fuel s4 acc2 (some acc2.length)
            else ipv6Body fuel s3 acc2 ell

/-- Post-loop checks and ellipsis expansion of Go `net.parseIPv6`. -/
def ipv6Finish : Option (List Char × List Nat × Option Nat) → Option (List Nat)
  | none => none
  | some (s, acc, ell) =>
    if s ≠ [] then none
    else if acc.length < 16 then
      match ell with
      | none => none
      | some e => some (acc.take e ++ List.replicate (16 - acc.length) 0 ++ acc.drop e)
    else
      match ell with
      | some _ => none
      | none => some acc

/-- Go `net.parseIPv6` (no zone, as called by `net.ParseIP`). -/
def goParseIPv6 (s0 : List Char) : Option (List Nat) :=
  if s0[0]? = some ':' ∧ s0[1]? = some ':' then
    let s := s0.drop 2
    if s = [] then some (List.replicate 16 0)
    else ipv6Finish (ipv6Body 8 s [] (some 0))
  else ipv6Finish (ipv6Body 8 s0 [] none)

/-- Go `net.ParseIP`: dispatch on the first `.` or `:` encountered;
returns `none` (Go: a `nil` slice) when the input parses as neither an
IPv4 dotted quad nor an IPv6 literal.  IPv4 results are stored in Go's
16-byte IPv4-in-IPv6 representation. -/
def goParseIP (s : String) : Option (List Nat) :=
  match s.data.find? (fun c => c = '.' ∨ c = ':') with
  | some '.' => (goParseIPv4 s.data).map (fun p => v4InV6Prefix ++ p)
  | some ':' => goParseIPv6 s.data
  | _ => none

/-- Value of a list of decimal digits. -/
def decDigitsVal (cs : List Char) : Nat :=
  cs.foldl (fun n c => 10 * n + (c.toNat - '0'.toNat)) 0

/-- Model of Go `strconv.ParseFloat` restricted to finite decimal
forms `[+-]? digits [. digits] [(e|E) [+-]? digits]` with the value
kept as an exact rational.  The `Inf`/`NaN` words, hexadecimal floats,
digit-group underscores and the overflow-to-`ErrRange` cases of the Go
function are not modelled: no claim statement or claim input involves
them, and the decoders only test parse success, never the rounded
binary value. -/
def goParseFloat (s : String) : Option Rat :=
  let (neg, cs1) : Bool × List Char :=
    match s.data with
    | '+' :: r => (false, r)
    | '-' :: r => (true, r)
    | r => (false, r)
  let (ip, r1) := cs1.span (fun c => c.isDigit)
  let (fp, r2) : List Char × List Char :=
    match r1 with
    | '.' :: r => r.span (fun c : Char => c.isDigit)
    | r => ([], r)
  if ip = [] ∧ fp = [] then none
  else
    let mant : Rat := (decDigitsVal ip : Rat) + (decDigitsVal fp : Rat) / (10 : Rat) ^ fp.length
    match r2 with
    | [] => some (if neg then -mant else mant)
    | e :: r3 =>
      if e = 'e' ∨ e = 'E' then
        let (eneg, r4) : Bool × List Char :=
          match r3 with
          | '+' :: r => (false, r)
          | '-' :: r => (true, r)
          | r => (false, r)
        let (ed, r5) := r4.span (fun c : Char => c.isDigit)
        if ed = [] ∨ r5 ≠ [] then none
        else
          let ev := decDigitsVal ed
          let v := if eneg then mant / (10 : Rat) ^ ev else mant * (10 : Rat) ^ ev
          some (if neg then -v else v)
      else none

/-- Model of Go `strconv.ParseInt(s, 10, 64)`: optional sign then
decimal digits.  The `ErrRange` overflow case is not modelled; no
claim input approaches 2^63. -/
def goParseIntDec (s : String) : Option Int :=
  let (neg, cs) : Bool × List Char :=
    match s.data with
    | '+' :: r => (false, r)
    | '-' :: r => (true, r)
    | r => (false, r)
  if cs = [] ∨ cs.any (fun c => ¬c.isDigit) then none
  else some (if neg then -(decDigitsVal cs : Int) else (decDigitsVal cs : Int))

/-- `encoding/json`'s guard for `,string`-tagged numeric fields: the
unquoted content must begin like a JSON number (`-` or a digit),
otherwise `Unmarshal` fails with an invalid-use-of-`,string` error
before `strconv` is even called. -/
def jsonQuotedNumberOK (s : String) : Bool :=
  match s.data with
  | c :: _ => c = '-' ∨ ('0' ≤ c ∧ c ≤ '9')
  | [] => false

/-- `encoding/json` conversion of a `,string`-tagged `float64` field's
quoted content. -/
def jsonStringFloat (s : String) : Option Rat :=
  if jsonQuotedNumberOK s then goParseFloat s else none

/-- `encoding/json` conversion of a `,string`-tagged `int` field's
quoted content. -/
def jsonStringInt (s : String) : Option Int :=
  if jsonQuotedNumberOK s then goParseIntDec s else none

/-- Go `time.Time` restricted to what the decoders construct: a Unix
instant, `sec` seconds and `nsec` nanoseconds after the UTC epoch. -/
structure GoTime where
  sec : Int
  nsec : Int
deriving DecidableEq, Repr

/-- Go `time.Unix`, including its nanosecond normalization (the
decoders only ever call it with `nsec = 0`). -/
def timeUnix (sec nsec : Int) : GoTime :=
  if nsec < 0 ∨ 1000000000 ≤ nsec then
    let n := Int.tdiv nsec 1000000000
    let sec2 := sec + n
    let nsec2 := nsec - n * 1000000000
    if nsec2 < 0 then ⟨sec2 - 1, nsec2 + 1000000000⟩ else ⟨sec2, nsec2⟩
  else ⟨sec, nsec⟩

/-- Go `time.Second` in `time.Duration` units (nanoseconds). -/
def goSecond : Int := 1000000000

/-- Raw wire structure `station` (stations.go).  Fields the decoder
never reads (`Authorized`, `Bssid`, `Essid`, ... ) are omitted: they
cannot influence the decoded `Station`.  Defaults are the Go zero
values taken by absent JSON keys. -/
structure station where
  ID : String := ""
  ApMac : String := ""
  AssocTime : Int := 0
  Channel : Int := 0
  FirstSeen : Int := 0
  Hostname : String := ""
  Idletime : Int := 0
  IP : String := ""
  LastSeen : Int := 0
  Mac : String := ""
  Name : String := ""
  Noise : Int := 0
  RSSI : Int := 0
  RoamCount : Int := 0
  SiteID : String := ""
  RxBytes : Int := 0
  RxPackets : Int := 0
  RxRate : Int := 0
  TxBytes : Int := 0
  TxPackets : Int := 0
  TxPower : Int := 0
  TxRate : Int := 0
  Uptime : Int := 0
  UserID : String := ""
deriving DecidableEq, Repr

/-- Domain `StationStats` (stations.go).  The defaults (Go zero
values) are only notation for writing expected values in concrete
scenarios; the decoder always sets every field explicitly. -/
structure StationStats where
  ReceiveBytes : Int := 0
  ReceivePackets : Int := 0
  ReceiveRate : Int := 0
  TransmitBytes : Int := 0
  TransmitPackets : Int := 0
  TransmitPower : Int := 0
  TransmitRate : Int := 0
deriving DecidableEq, Repr

/-- Domain `Station` (stations.go).  `net.HardwareAddr` and `net.IP`
are Go byte slices which may be `nil`; `none` models the `nil` slice.
`MAC` is always non-`nil` on success, so it is a plain list.  The
`Stats` pointer is always set by the decoder, so it is a plain
field. -/
structure Station where
  ID : String := ""
  APMAC : Option (List Nat) := none
  AssociationTime : GoTime := ⟨0, 0⟩
  Channel : Int := 0
  FirstSeen : GoTime := ⟨0, 0⟩
  Hostname : String := ""
  IdleTime : Int := 0
  IP : Option (List Nat) := none
  LastSeen : GoTime := ⟨0, 0⟩
  MAC : List Nat := []
  RoamCount : Int := 0
  Name : String := ""
  Noise : Int := 0
  RSSI : Int := 0
  SiteID : String := ""
  Stats : StationStats := {}
  Uptime : Int := 0
  UserID : String := ""
deriving DecidableEq, Repr

/-- First statement of `Station.UnmarshalJSON` (stations.go lines
71-74): `apMAC, err := net.ParseMAC(sta.ApMac)` followed by
`if sta.ApMac != "" && err != nil { return err }`.  On a parse error
Go leaves `apMAC` as the `nil` slice, so the tolerated empty-string
case yields `none`. -/
def apMACStep (sta : station) : Except AddrError (Option (List Nat)) :=
  match goParseMAC sta.ApMac with
  | .ok m => .ok (some m)
  | .error e => if sta.ApMac = "" then .ok none else .error e

/-- The `*s = Station{...}` literal of `Station.UnmarshalJSON`
(stations.go lines 81-108). -/
def stationAssemble (sta : station) (apMAC : Option (List Nat)) (mac : List Nat) : Station :=
  { ID := sta.ID
    APMAC := apMAC
    AssociationTime := timeUnix sta.AssocTime 0
    Channel := sta.Channel
    FirstSeen := timeUnix sta.FirstSeen 0
    Hostname := sta.Hostname
    IdleTime := sta.Idletime * goSecond
    IP := goParseIP sta.IP
    LastSeen := timeUnix sta.LastSeen 0
    MAC := mac
    Name := sta.Name
    Noise := sta.Noise
    RSSI := sta.RSSI
    RoamCount := sta.RoamCount
    SiteID := sta.SiteID
    Stats := {
      ReceiveBytes := sta.RxBytes
      ReceivePackets := sta.RxPackets
      ReceiveRate := sta.RxRate
      TransmitBytes := sta.TxBytes
      TransmitPackets := sta.TxPackets
      TransmitPower := sta.TxPower
      TransmitRate := sta.TxRate }
    Uptime := sta.Uptime * goSecond
    UserID := sta.UserID }

/-- `Station.UnmarshalJSON` (stations.go lines 65-111), starting from
the already-unmarshalled raw `station` value (the raw struct has no
`,string` fields, so `json.Unmarshal` itself can only fail on JSON
syntax, which is outside the wire model).  Note the order: the
associated-AP MAC is parsed and checked first, the station's own MAC
second; an empty `ap_mac` is tolerated and yields a `nil` `APMAC`;
`net.ParseIP`'s result (inside `stationAssemble`) is stored
unchecked. -/
def stationUnmarshal (sta : station) : Except AddrError Station :=
  match apMACStep sta with
  | .error e => .error e
  | .ok apMAC =>
    match goParseMAC sta.Mac with
    | .error e => .error e
    | .ok mac => .ok (stationAssemble sta apMAC mac)

/-- Ethernet-table row of the raw `device` struct (devices.go); the
decoder reads only `mac` and `name` (`num_port` is never read and is
omitted). -/
structure ethRow where
  MAC : String := ""
  Name : String := ""
deriving DecidableEq, Repr

/-- Radio-table row of the raw `device` struct (devices.go). -/
structure radioRow where
  BuiltinAntGain : Int := 0
  BuiltinAntenna : Bool := false
  MaxTXPower : Int := 0
  MinTXPower : Int := 0
  Name : String := ""
  Radio : String := ""
deriving DecidableEq, Repr

/-- Radio-statistics-table row of the raw `device` struct
(devices.go, `radio_table_stats`); the decoder reads only the
station-count fields and `name`, the other raw fields are omitted. -/
structure radioStatRow where
  GuestNumSta : Int := 0
  Name : String := ""
  NumSta : Int := 0
  UserNumSta : Int := 0
deriving DecidableEq, Repr

/-- `stat` block of the raw `device` struct (fields the decoder reads;
wire type is JSON number / Go float64, modelled as exact `Rat`). -/
structure statBlock where
  Bytes : Rat := 0
  GuestRxBytes : Rat := 0
  GuestRxPackets : Rat := 0
  GuestTxBytes : Rat := 0
  GuestTxDropped : Rat := 0
  GuestTxPackets : Rat := 0
  RxBytes : Rat := 0
  RxPackets : Rat := 0
  TxBytes : Rat := 0
  TxDropped : Rat := 0
  TxPackets : Rat := 0
  UserRxBytes : Rat := 0
  UserRxPackets : Rat := 0
  UserTxBytes : Rat := 0
  UserTxDropped : Rat := 0
  UserTxPackets : Rat := 0
deriving DecidableEq, Repr

/-- `uplink` block of the raw `device` struct (fields the decoder
reads). -/
structure uplinkBlock where
  RxBytes : Rat := 0
  RxPackets : Rat := 0
  TxBytes : Rat := 0
  TxPackets : Rat := 0
deriving DecidableEq, Repr

/-- `system-stats` block of the raw `device` struct: every field is
`,string`-tagged (`cpu,string` etc.), so the wire value is a quoted
JSON string which `encoding/json` itself converts with `strconv`.
`none` models an absent (or `null`) key, which is left at the zero
value without any parse. -/
structure rawSystemStats where
  cpu : Option String := none
  mem : Option String := none
  uptime : Option String := none
deriving DecidableEq, Repr

/-- `sys_stats` block of the raw `device` struct: the three load
averages are `,string`-tagged, the memory fields are plain JSON
numbers decoded into `int64`. -/
structure rawSysStats where
  loadavg1 : Option String := none
  loadavg15 : Option String := none
  loadavg5 : Option String := none
  memBuffer : Int := 0
  memTotal : Int := 0
  memUsed : Int := 0
deriving DecidableEq, Repr

/-- Raw wire structure `device` (devices.go).  Fields the decoder
never reads (`bytes`, `cfgversion`, `config_network`, `device_id`,
`guest-num_sta`, `has_speaker`, `ip`, `last_seen`, `mac`, `num_sta`,
`radio_ng`, `rx_bytes`, `state`, `tx_bytes`, `type`, `uplink_table`,
`user-num_sta`, `vwire*`, `wlangroup_id_ng`, `x_*`) are omitted. -/
structure device where
  ID : String := ""
  Adopted : Bool := false
  EthernetTable : List ethRow := []
  InformIP : String := ""
  InformURL : String := ""
  Model : String := ""
  Name : String := ""
  RadioTable : List radioRow := []
  RadioTableStats : List radioStatRow := []
  Serial : String := ""
  SiteID : String := ""
  Stat : statBlock := {}
  Uplink : uplinkBlock := {}
  Uptime : Int := 0
  Version : String := ""
  SystemStats : rawSystemStats := {}
  SysStats : rawSysStats := {}
deriving DecidableEq, Repr

/-- Domain `RadioStationsStats` (devices.go). -/
structure RadioStationsStats where
  NumberStations : Int
  NumberGuestStations : Int
  NumberUserStations : Int
deriving DecidableEq, Repr

set_option linter.dupNamespace false in
/-- Domain `Radio` (devices.go).  `Stats` is a Go pointer that stays
`nil` when no radio-statistics row matches: `none` models `nil`.  The
`Radio` field keeps the Go field name (the band label), hence the
silenced name linter. -/
structure Radio where
  BuiltInAntenna : Bool
  BuiltInAntennaGain : Int
  MaxTXPower : Int
  MinTXPower : Int
  Name : String
  Radio : String
  Stats : Option RadioStationsStats
deriving DecidableEq, Repr

/-- Domain `NIC` (devices.go). -/
structure NIC where
  MAC : List Nat
  Name : String
deriving DecidableEq, Repr

/-- Domain `SystemStats` (devices.go).  Defaults are the Go zero
values, notation only. -/
structure SystemStats where
  CpuPercentage : Rat := 0
  MemPercentage : Rat := 0
  Uptime : Int := 0
  LoadAvg1 : Rat := 0
  LoadAvg15 : Rat := 0
  LoadAvg5 : Rat := 0
  MemBuffer : Int := 0
  MemTotal : Int := 0
  MemUsed : Int := 0
deriving DecidableEq, Repr

/-- Domain `WirelessStats` (devices.go). -/
structure WirelessStats where
  ReceiveBytes : Rat := 0
  ReceivePackets : Rat := 0
  TransmitBytes : Rat := 0
  TransmitDropped : Rat := 0
  TransmitPackets : Rat := 0
deriving DecidableEq, Repr

/-- Domain `WiredStats` (devices.go). -/
structure WiredStats where
  ReceiveBytes : Rat := 0
  ReceivePackets : Rat := 0
  TransmitBytes : Rat := 0
  TransmitPackets : Rat := 0
deriving DecidableEq, Repr

/-- Domain `DeviceStats` (devices.go); all five pointers are always
set by the decoder, so they are plain fields. -/
structure DeviceStats where
  TotalBytes : Rat := 0
  All : WirelessStats := {}
  Guest : WirelessStats := {}
  User : WirelessStats := {}
  Uplink : WiredStats := {}
  System : SystemStats := {}
deriving DecidableEq, Repr

/-- Result of Go `url.Parse` as far as the decoder uses it: the
parsed URL is only stored, never inspected, so the model keeps the
raw string. -/
structure GoURL where
  raw : String
deriving DecidableEq, Repr

/-- Model of Go `url.Parse` at the precision the claims need:
`url.Parse` rejects strings containing ASCII control characters and
accepts every claim-relevant input (including the empty string).  Its
finer failure cases (malformed percent-escapes, malformed scheme) are
not modelled: no claim mentions the URL field, every claim statement
about `deviceUnmarshal` is conditioned on the actual decode result,
and no claim input contains an escape or a scheme edge case. -/
def goURLParse (s : String) : Except String GoURL :=
  if s.data.any (fun c => c.toNat < 0x20 ∨ c.toNat = 0x7f) then
    .error "net/url: invalid control character in URL"
  else .ok ⟨s⟩

/-- Domain `Device` (devices.go).  `NICs` and `Radios` are Go slices:
`none` models a `nil` slice, `some l` a non-`nil` slice with elements
`l` (Go's `reflect.DeepEqual`, used by the repository's tests,
distinguishes the two). -/
structure Device where
  ID : String := ""
  Adopted : Bool := false
  InformIP : List Nat := []
  InformURL : GoURL := ⟨""⟩
  Model : String := ""
  Name : String := ""
  NICs : Option (List NIC) := none
  Radios : Option (List Radio) := none
  Serial : String := ""
  SiteID : String := ""
  Stats : DeviceStats := {}
  Uptime : Int := 0
  Version : String := ""
deriving DecidableEq, Repr

/-- Raw radio codes and band labels (devices.go constants). -/
def radioNA : String := "na"

/-- Raw radio code for the 2.4GHz band (devices.go). -/
def radioNG : String := "ng"

/-- Band label mapped from `radioNA` (devices.go). -/
def radio5GHz : String := "5GHz"

/-- Band label mapped from `radioNG` (devices.go). -/
def radio24GHz : String := "2.4GHz"

/-- The distinguishable failures of `Device.UnmarshalJSON`:
`numericString` is an `encoding/json` error from a `,string`-tagged
numeric field (raised inside the initial `json.Unmarshal` call),
`informIP` is the decoder's own `failed to parse inform IP` error,
`urlParse` a `url.Parse` error, `mac` a `net.ParseMAC` error from the
ethernet table. -/
inductive DeviceDecodeErr where
  | numericString (field raw : String)
  | informIP (raw : String)
  | urlParse (raw : String)
  | mac (e : AddrError)
deriving DecidableEq, Repr

/-- `encoding/json` decode of one `,string`-tagged `float64` field:
absent key → zero value, otherwise the quoted string must start like
a JSON number and parse with `strconv.ParseFloat`. -/
def decodeStringFloat (field : String) (v : Option String) : Except DeviceDecodeErr Rat :=
  match v with
  | none => .ok 0
  | some s =>
    match jsonStringFloat s with
    | some q => .ok q
    | none => .error (.numericString field s)

/-- `encoding/json` decode of one `,string`-tagged `int` field. -/
def decodeStringInt (field : String) (v : Option String) : Except DeviceDecodeErr Int :=
  match v with
  | none => .ok 0
  | some s =>
    match jsonStringInt s with
    | some n => .ok n
    | none => .error (.numericString field s)

/-- The `,string` conversions performed inside `json.Unmarshal(b, &dev)`
for the `system-stats` and `sys_stats` blocks, assembled into the
domain `SystemStats` exactly as `Device.UnmarshalJSON` later copies
them.  `encoding/json` performs these conversions during the initial
unmarshal, before the decoder's own validation steps run; the order
among the six fields follows the raw struct, while Go follows the JSON
key order of the input — no claim distinguishes which of several
invalid `,string` fields is reported, only that the error is a
`numericString` error. -/
def decodeSystemStats (dev : device) : Except DeviceDecodeErr SystemStats :=
  match decodeStringFloat "cpu" dev.SystemStats.cpu with
  | .error e => .error e
  | .ok cpu =>
  match decodeStringFloat "mem" dev.SystemStats.mem with
  | .error e => .error e
  | .ok mem =>
  match decodeStringInt "uptime" dev.SystemStats.uptime with
  | .error e => .error e
  | .ok up =>
  match decodeStringFloat "loadavg_1" dev.SysStats.loadavg1 with
  | .error e => .error e
  | .ok l1 =>
  match decodeStringFloat "loadavg_15" dev.SysStats.loadavg15 with
  | .error e => .error e
  | .ok l15 =>
  match decodeStringFloat "loadavg_5" dev.SysStats.loadavg5 with
  | .error e => .error e
  | .ok l5 =>
    .ok { CpuPercentage := cpu, MemPercentage := mem, Uptime := up,
          LoadAvg1 := l1, LoadAvg15 := l15, LoadAvg5 := l5,
          MemBuffer := dev.SysStats.memBuffer, MemTotal := dev.SysStats.memTotal,
          MemUsed := dev.SysStats.memUsed }

/-- The NIC loop of `Device.UnmarshalJSON`: parse each ethernet-table
row's MAC (fail fast on the first `net.ParseMAC` error), preserving
wire order. -/
def buildNICs : List ethRow → Except AddrError (List NIC)
  | [] => .ok []
  | et :: rest =>
    match goParseMAC et.MAC with
    | .error e => .error e
    | .ok mac =>
      match buildNICs rest with
      | .error e => .error e
      | .ok nics => .ok ({ MAC := mac, Name := et.Name } :: nics)

/-- Station-count statistics built from one radio-statistics row
(devices.go lines 674-678). -/
def radioStatsOf (v : radioStatRow) : RadioStationsStats :=
  { NumberStations := v.NumSta
    NumberUserStations := v.UserNumSta
    NumberGuestStations := v.GuestNumSta }

/-- The `&Radio{...}` literal opening the radio-loop body of
`Device.UnmarshalJSON` (devices.go lines 664-670): the `Radio` (band)
and `Stats` fields are not in the literal, so they take Go's zero
values `""` and `nil`. -/
def radioShell (rt : radioRow) : Radio :=
  { BuiltInAntenna := rt.BuiltinAntenna
    BuiltInAntennaGain := rt.BuiltinAntGain
    MaxTXPower := rt.MaxTXPower
    MinTXPower := rt.MinTXPower
    Name := rt.Name
    Radio := ""
    Stats := none }

/-- The inner statistics scan of the radio loop (devices.go lines
672-680): every row of `radio_table_stats` whose `name` equals this
radio's `name` overwrites `r.Stats`, so a later match replaces an
earlier one. -/
def attachStats (stats : List radioStatRow) (rt : radioRow) (r : Radio) : Radio :=
  stats.foldl
    (fun r v => if v.Name = rt.Name then { r with Stats := some (radioStatsOf v) } else r) r

/-- The band-classification switch of the radio loop (devices.go
lines 682-687): `na`/`ng` map to labels, any other code leaves the
zero value `""`. -/
def classifyBand (rt : radioRow) (r : Radio) : Radio :=
  if rt.Radio = radioNA then { r with Radio := radio5GHz }
  else if rt.Radio = radioNG then { r with Radio := radio24GHz }
  else r

/-- The whole radio-loop body of `Device.UnmarshalJSON` (devices.go
lines 663-689). -/
def buildRadio (stats : List radioStatRow) (rt : radioRow) : Radio :=
  classifyBand rt (attachStats stats rt (radioShell rt))

/-- The `*d = Device{...}` literal of `Device.UnmarshalJSON`
(devices.go lines 692-746): `NICs` and `Radios` always receive the
freshly built (non-`nil`, possibly empty) slices, the radio loop
result being `radio_table` mapped through the loop body. -/
def deviceAssemble (dev : device) (informIP : List Nat) (informURL : GoURL)
    (nics : List NIC) (system : SystemStats) : Device :=
  { ID := dev.ID
    Adopted := dev.Adopted
    InformIP := informIP
    InformURL := informURL
    Model := dev.Model
    Name := dev.Name
    NICs := some nics
    Radios := some (dev.RadioTable.map (buildRadio dev.RadioTableStats))
    Serial := dev.Serial
    SiteID := dev.SiteID
    Uptime := dev.Uptime * goSecond
    Version := dev.Version
    Stats := {
      TotalBytes := dev.Stat.Bytes
      All := {
        ReceiveBytes := dev.Stat.RxBytes
        ReceivePackets := dev.Stat.RxPackets
        TransmitBytes := dev.Stat.TxBytes
        TransmitDropped := dev.Stat.TxDropped
        TransmitPackets := dev.Stat.TxPackets }
      User := {
        ReceiveBytes := dev.Stat.UserRxBytes
        ReceivePackets := dev.Stat.UserRxPackets
        TransmitBytes := dev.Stat.UserTxBytes
        TransmitDropped := dev.Stat.UserTxDropped
        TransmitPackets := dev.Stat.UserTxPackets }
      Guest := {
        ReceiveBytes := dev.Stat.GuestRxBytes
        ReceivePackets := dev.Stat.GuestRxPackets
        TransmitBytes := dev.Stat.GuestTxBytes
        TransmitDropped := dev.Stat.GuestTxDropped
        TransmitPackets := dev.Stat.GuestTxPackets }
      Uplink := {
        ReceiveBytes := dev.Uplink.RxBytes
        ReceivePackets := dev.Uplink.RxPackets
        TransmitBytes := dev.Uplink.TxBytes
        TransmitPackets := dev.Uplink.TxPackets }
      System := system } }

/-- `Device.UnmarshalJSON` (devices.go lines 633-749), starting from
the raw wire object.  The first step is the tail of
`json.Unmarshal(b, &dev)` itself: conversion of the `,string`-tagged
numeric fields, whose failure aborts the decode before any of the
decoder's own checks.  Then: inform-IP validation (fatal when
`net.ParseIP` yields `nil`), inform-URL parse, the fail-fast NIC
loop, the infallible radio loop with the stats join, and assembly. -/
def deviceUnmarshal (dev : device) : Except DeviceDecodeErr Device :=
  match decodeSystemStats dev with
  | .error e => .error e
  | .ok system =>
  match goParseIP dev.InformIP with
  | none => .error (.informIP dev.InformIP)
  | some informIP =>
  match goURLParse dev.InformURL with
  | .error _ => .error (.urlParse dev.InformURL)
  | .ok informURL =>
  match buildNICs dev.EthernetTable with
  | .error e => .error (.mac e)
  | .ok nics => .ok (deviceAssemble dev informIP informURL nics system)

/-- The last row of `stats` whose `name` equals `name`, in wire-table
order — the row the overwriting scan of the radio loop retains. -/
def lastMatching (name : String) : List radioStatRow → Option radioStatRow
  | [] => none
  | v :: rest =>
    match lastMatching name rest with
    | some w => some w
    | none => if v.Name = name then some v else none

theorem lastMatching_isSome_iff (name : String) (stats : List radioStatRow) :
    (lastMatching name stats).isSome = true ↔ ∃ v ∈ stats, v.Name = name := by
  induction stats with
  | nil => simp [lastMatching]
  | cons v rest ih =>
    cases hl : lastMatching name rest with
    | some w =>
      simp only [lastMatching, hl, Option.isSome_some, true_iff]
      obtain ⟨u, hu, hn⟩ := ih.mp (by simp [hl])
      exact ⟨u, List.mem_cons_of_mem _ hu, hn⟩
    | none =>
      by_cases h : v.Name = name
      · simp [lastMatching, hl, h]
      · simp only [lastMatching, hl, if_neg h]
        constructor
        · intro hc; simp at hc
        · rintro ⟨u, hu, hn⟩
          rcases List.mem_cons.mp hu with rfl | hu2
          · exact absurd hn h
          · have h2 := ih.mpr ⟨u, hu2, hn⟩
            rw [hl] at h2; simp at h2

theorem attachStats_Stats (rt : radioRow) :
    ∀ (stats : List radioStatRow) (r : Radio),
      (attachStats stats rt r).Stats =
        match lastMatching rt.Name stats with
        | some w => some (radioStatsOf w)
        | none => r.Stats := by
  intro stats
  induction stats with
  | nil => intro r; rfl
  | cons v rest ih =>
    intro r
    have hstep : attachStats (v :: rest) rt r =
        attachStats rest rt
          (if v.Name = rt.Name then { r with Stats := some (radioStatsOf v) } else r) := rfl
    rw [hstep, ih]
    by_cases h : v.Name = rt.Name <;>
      cases hl : lastMatching rt.Name rest <;>
        simp [lastMatching, h, hl]

theorem attachStats_Radio (rt : radioRow) :
    ∀ (stats : List radioStatRow) (r : Radio), (attachStats stats rt r).Radio = r.Radio := by
  intro stats
  induction stats with
  | nil => intro r; rfl
  | cons v rest ih =>
    intro r
    have hstep : attachStats (v :: rest) rt r =
        attachStats rest rt
          (if v.Name = rt.Name then { r with Stats := some (radioStatsOf v) } else r) := rfl
    rw [hstep, ih]
    by_cases h : v.Name = rt.Name <;> simp [h]

theorem classifyBand_Stats (rt : radioRow) (r : Radio) :
    (classifyBand rt r).Stats = r.Stats := by
  unfold classifyBand; split_ifs <;> rfl

theorem classifyBand_Radio (rt : radioRow) (r : Radio) :
    (classifyBand rt r).Radio =
      if rt.Radio = "na" then "5GHz" else if rt.Radio = "ng" then "2.4GHz" else r.Radio := by
  unfold classifyBand radioNA radioNG radio5GHz radio24GHz
  split_ifs <;> rfl

theorem buildRadio_Stats (stats : List radioStatRow) (rt : radioRow) :
    (buildRadio stats rt).Stats = (lastMatching rt.Name stats).map radioStatsOf := by
  unfold buildRadio
  rw [classifyBand_Stats, attachStats_Stats]
  cases lastMatching rt.Name stats <;> rfl

theorem buildRadio_Radio (stats : List radioStatRow) (rt : radioRow) :
    (buildRadio stats rt).Radio =
      if rt.Radio = "na" then "5GHz" else if rt.Radio = "ng" then "2.4GHz" else "" := by
  unfold buildRadio
  rw [classifyBand_Radio, attachStats_Radio]
  rfl

theorem buildNICs_length :
    ∀ (l : List ethRow) (nics : List NIC), buildNICs l = Except.ok nics →
      nics.length = l.length := by
  intro l
  induction l with
  | nil =>
    intro nics h
    unfold buildNICs at h
    simp only [Except.ok.injEq] at h
    subst h; rfl
  | cons et rest ih =>
    intro nics h
    unfold buildNICs at h
    cases hm : goParseMAC et.MAC with
    | error e => rw [hm] at h; simp at h
    | ok mac =>
      rw [hm] at h
      cases hr : buildNICs rest with
      | error e => rw [hr] at h; simp at h
      | ok tail =>
        rw [hr] at h
        simp only [Except.ok.injEq] at h
        subst h
        simp [ih tail hr]

theorem apMACStep_empty (sta : station) (h : sta.ApMac = "") :
    apMACStep sta = .ok none := by
  unfold apMACStep
  rw [h]
  rfl

theorem apMACStep_error (sta : station) (e : AddrError) (h1 : sta.ApMac ≠ "")
    (h2 : goParseMAC sta.ApMac = .error e) : apMACStep sta = .error e := by
  unfold apMACStep
  rw [h2]
  simp [h1]

theorem apMACStep_some (sta : station) (m : List Nat)
    (h : goParseMAC sta.ApMac = .ok m) : apMACStep sta = .ok (some m) := by
  unfold apMACStep
  rw [h]

theorem stationUnmarshal_ap_error (sta : station) (e : AddrError)
    (h : apMACStep sta = .error e) : stationUnmarshal sta = .error e := by
  unfold stationUnmarshal
  rw [h]

theorem stationUnmarshal_mac_error (sta : station) (apm : Option (List Nat)) (e : AddrError)
    (h1 : apMACStep sta = .ok apm) (h2 : goParseMAC sta.Mac = .error e) :
    stationUnmarshal sta = .error e := by
  unfold stationUnmarshal
  rw [h1, h2]

theorem stationUnmarshal_ok (sta : station) (apm : Option (List Nat)) (mac : List Nat)
    (h1 : apMACStep sta = .ok apm) (h2 : goParseMAC sta.Mac = .ok mac) :
    stationUnmarshal sta = .ok (stationAssemble sta apm mac) := by
  unfold stationUnmarshal
  rw [h1, h2]

theorem stationUnmarshal_ok_inv (sta : station) (s' : Station)
    (h : stationUnmarshal sta = .ok s') :
    ∃ apm mac, apMACStep sta = .ok apm ∧ goParseMAC sta.Mac = .ok mac ∧
      s' = stationAssemble sta apm mac := by
  unfold stationUnmarshal at h
  cases ha : apMACStep sta with
  | error e => rw [ha] at h; simp at h
  | ok apm =>
    rw [ha] at h
    cases hm : goParseMAC sta.Mac with
    | error e => rw [hm] at h; simp at h
    | ok mac =>
      rw [hm] at h
      simp only [Except.ok.injEq] at h
      exact ⟨apm, mac, rfl, rfl, h.symm⟩

theorem decodeStringFloat_error (f : String) (v : Option String) (e : DeviceDecodeErr)
    (h : decodeStringFloat f v = .error e) : ∃ r, e = .numericString f r := by
  cases v with
  | none => simp [decodeStringFloat] at h
  | some s =>
    simp only [decodeStringFloat] at h
    cases hj : jsonStringFloat s with
    | none =>
      rw [hj] at h
      simp only [Except.error.injEq] at h
      exact ⟨s, h.symm⟩
    | some q => rw [hj] at h; simp at h

theorem decodeStringInt_error (f : String) (v : Option String) (e : DeviceDecodeErr)
    (h : decodeStringInt f v = .error e) : ∃ r, e = .numericString f r := by
  cases v with
  | none => simp [decodeStringInt] at h
  | some s =>
    simp only [decodeStringInt] at h
    cases hj : jsonStringInt s with
    | none =>
      rw [hj] at h
      simp only [Except.error.injEq] at h
      exact ⟨s, h.symm⟩
    | some q => rw [hj] at h; simp at h

theorem decodeSystemStats_error_shape (dev : device) (e : DeviceDecodeErr)
    (h : decodeSystemStats dev = .error e) :
    ∃ f r, e = .numericString f r := by
  unfold decodeSystemStats at h
  cases h1 : decodeStringFloat "cpu" dev.SystemStats.cpu with
  | error e1 =>
    rw [h1] at h
    simp only [Except.error.injEq] at h
    subst h
    obtain ⟨r, hr⟩ := decodeStringFloat_error _ _ _ h1
    exact ⟨"cpu", r, hr⟩
  | ok c1 =>
    rw [h1] at h
    cases h2 : decodeStringFloat "mem" dev.SystemStats.mem with
    | error e2 =>
      rw [h2] at h
      simp only [Except.error.injEq] at h
      subst h
      obtain ⟨r, hr⟩ := decodeStringFloat_error _ _ _ h2
      exact ⟨"mem", r, hr⟩
    | ok c2 =>
      rw [h2] at h
      cases h3 : decodeStringInt "uptime" dev.SystemStats.uptime with
      | error e3 =>
        rw [h3] at h
        simp only [Except.error.injEq] at h
        subst h
        obtain ⟨r, hr⟩ := decodeStringInt_error _ _ _ h3
        exact ⟨"uptime", r, hr⟩
      | ok c3 =>
        rw [h3] at h
        cases h4 : decodeStringFloat "loadavg_1" dev.SysStats.loadavg1 with
        | error e4 =>
          rw [h4] at h
          simp only [Except.error.injEq] at h
          subst h
          obtain ⟨r, hr⟩ := decodeStringFloat_error _ _ _ h4
          exact ⟨"loadavg_1", r, hr⟩
        | ok c4 =>
          rw [h4] at h
          cases h5 : decodeStringFloat "loadavg_15" dev.SysStats.loadavg15 with
          | error e5 =>
            rw [h5] at h
            simp only [Except.error.injEq] at h
            subst h
            obtain ⟨r, hr⟩ := decodeStringFloat_error _ _ _ h5
            exact ⟨"loadavg_15", r, hr⟩
          | ok c5 =>
            rw [h5] at h
            cases h6 : decodeStringFloat "loadavg_5" dev.SysStats.loadavg5 with
            | error e6 =>
              rw [h6] at h
              simp only [Except.error.injEq] at h
              subst h
              obtain ⟨r, hr⟩ := decodeStringFloat_error _ _ _ h6
              exact ⟨"loadavg_5", r, hr⟩
            | ok c6 => rw [h6] at h; simp at h

theorem deviceUnmarshal_string_error (dev : device) (e : DeviceDecodeErr)
    (h : decodeSystemStats dev = .error e) : deviceUnmarshal dev = .error e := by
  unfold deviceUnmarshal
  rw [h]

theorem deviceUnmarshal_ok_inv (dev : device) (d : Device)
    (h : deviceUnmarshal dev = .ok d) :
    ∃ sys ip u nics, decodeSystemStats dev = .ok sys ∧
      goParseIP dev.InformIP = some ip ∧ goURLParse dev.InformURL = .ok u ∧
      buildNICs dev.EthernetTable = .ok nics ∧
      d = deviceAssemble dev ip u nics sys := by
  unfold deviceUnmarshal at h
  cases hs : decodeSystemStats dev with
  | error e => rw [hs] at h; simp at h
  | ok sys =>
    rw [hs] at h
    cases hip : goParseIP dev.InformIP with
    | none => rw [hip] at h; simp at h
    | some ip =>
      rw [hip] at h
      cases hu : goURLParse dev.InformURL with
      | error e => rw [hu] at h; simp at h
      | ok u =>
        rw [hu] at h
        cases hn : buildNICs dev.EthernetTable with
        | error e => rw [hn] at h; simp at h
        | ok nics =>
          rw [hn] at h
          simp only [Except.ok.injEq] at h
          exact ⟨sys, ip, u, nics, rfl, rfl, rfl, rfl, h.symm⟩

theorem deviceUnmarshal_isOk_iff (dev : device) :
    (deviceUnmarshal dev).isOk =
      ((decodeSystemStats dev).isOk && (goParseIP dev.InformIP).isSome &&
        (goURLParse dev.InformURL).isOk && (buildNICs dev.EthernetTable).isOk) := by
  unfold deviceUnmarshal
  cases decodeSystemStats dev <;> cases goParseIP dev.InformIP <;>
    cases goURLParse dev.InformURL <;> cases buildNICs dev.EthernetTable <;> rfl

instance {ε α : Type} [DecidableEq ε] [DecidableEq α] : DecidableEq (Except ε α) := fun x y =>
  match x, y with
  | .ok a, .ok b =>
    if h : a = b then .isTrue (by rw [h]) else .isFalse (fun hc => h (Except.ok.inj hc))
  | .error a, .error b =>
    if h : a = b then .isTrue (by rw [h]) else .isFalse (fun hc => h (Except.error.inj hc))
  | .ok _, .error _ => .isFalse (fun hc => Except.noConfusion hc)
  | .error _, .ok _ => .isFalse (fun hc => Except.noConfusion hc)

theorem deviceUnmarshal_radioTable_irrelevant (dev : device) (rts : List radioRow) :
    (deviceUnmarshal { dev with RadioTable := rts }).isOk = (deviceUnmarshal dev).isOk := by
  have h1 : decodeSystemStats { dev with RadioTable := rts } = decodeSystemStats dev := rfl
  have h2 : ({ dev with RadioTable := rts } : device).InformIP = dev.InformIP := rfl
  have h3 : ({ dev with RadioTable := rts } : device).InformURL = dev.InformURL := rfl
  have h4 : ({ dev with RadioTable := rts } : device).EthernetTable = dev.EthernetTable := rfl
  rw [deviceUnmarshal_isOk_iff, deviceUnmarshal_isOk_iff, h1, h2, h3, h4]

/-- Concrete station wire object for C1: a present, unparseable `ip`
field alongside valid MAC fields. -/
def c1sta : station :=
  { ApMac := "de:ad:be:ef:de:ad", IP := "foo", Mac := "de:ad:be:ef:de:ad" }

/-- The Station the decoder actually produces for `c1sta`. -/
def c1out : Station :=
  { APMAC := some [0xde, 0xad, 0xbe, 0xef, 0xde, 0xad]
    IP := none
    MAC := [0xde, 0xad, 0xbe, 0xef, 0xde, 0xad] }

/-- C1: the claim says a present but unparseable `ip` field makes
Station decode fail, never succeeding with an absent or zero IP.  The
code (stations.go line 89) stores `net.ParseIP(sta.IP)` without any
check, so decode succeeds and the IP field is the nil slice — even
though the repository's own test (stations_test.go "invalid IP")
expects a `failed to parse station IP` error for exactly this shape of
input.  This theorem evaluates the decoder at the failing input:
`ParseIP` rejects `"foo"`, yet decoding succeeds and yields a `nil`
IP. -/
theorem C1_station_invalid_ip_not_fatal :
    goParseIP "foo" = none
    ∧ stationUnmarshal c1sta = Except.ok c1out
    ∧ c1out.IP = none := by decide

/-- Concrete station wire object for C5: both the station's own MAC
and the (non-empty) associated-AP MAC are malformed. -/
def c5sta : station := { ApMac := "bar", Mac := "foo" }

/-- C5 counterexample: the claim says the station's own MAC is
validated first, so with both MACs malformed the reported error would
be the own-MAC error (`AddrError` with `Addr = "foo"`).  The code
(stations.go lines 71-79) checks the associated-AP MAC first: the
reported error carries `Addr = "bar"`, not `"foo"`. -/
theorem C5_station_mac_order_counterexample :
    (∃ e, goParseMAC c5sta.Mac = Except.error e)
    ∧ (∃ e, goParseMAC c5sta.ApMac = Except.error e)
    ∧ stationUnmarshal c5sta = Except.error ⟨"invalid MAC address", "bar"⟩
    ∧ stationUnmarshal c5sta ≠ Except.error ⟨"invalid MAC address", "foo"⟩ :=
  ⟨⟨⟨"invalid MAC address", "foo"⟩, by decide⟩,
   ⟨⟨"invalid MAC address", "bar"⟩, by decide⟩, by decide, by decide⟩

/-- C5 amended: Station decode validates the associated-AP MAC first
and the station's own MAC second (the IP is never validated at all —
see C1); hence whenever the associated-AP MAC is non-empty and
malformed — in particular when the own MAC is also malformed — the
reported error is the associated-AP MAC's parse error. -/
theorem C5_station_apmac_validated_first (sta : station) (e : AddrError)
    (h1 : sta.ApMac ≠ "") (h2 : goParseMAC sta.ApMac = Except.error e) :
    stationUnmarshal sta = Except.error e :=
  stationUnmarshal_ap_error sta e (apMACStep_error sta e h1 h2)

/-- C5 witness: the amended theorem applied at `c5sta`. -/
theorem C5_station_apmac_validated_first_witness :
    stationUnmarshal c5sta = Except.error ⟨"invalid MAC address", "bar"⟩ :=
  C5_station_apmac_validated_first c5sta ⟨"invalid MAC address", "bar"⟩
    (by decide) (by decide)

/-- C6: an empty associated-AP MAC wire value is tolerated: the
decoded `APMAC` is absent (`nil`) and the decode succeeds exactly when
the rest of the station (its own mandatory MAC) parses; a non-empty
associated-AP MAC that fails `net.ParseMAC` is a fatal decode
error. -/
theorem C6_station_empty_apmac_tolerated :
    (∀ (sta : station) (s' : Station), sta.ApMac = "" →
        stationUnmarshal sta = Except.ok s' → s'.APMAC = none)
    ∧ (∀ sta : station, sta.ApMac = "" →
        (stationUnmarshal sta).isOk = (goParseMAC sta.Mac).isOk)
    ∧ (∀ (sta : station) (e : AddrError), sta.ApMac ≠ "" →
        goParseMAC sta.ApMac = Except.error e →
        stationUnmarshal sta = Except.error e) := by
  refine ⟨?_, ?_, ?_⟩
  · intro sta s' he hok
    obtain ⟨apm, mac, ha, hm, hs⟩ := stationUnmarshal_ok_inv sta s' hok
    rw [apMACStep_empty sta he] at ha
    have hapm : apm = none := (Except.ok.inj ha).symm
    subst hs
    subst hapm
    rfl
  · intro sta he
    have ha := apMACStep_empty sta he
    cases hm : goParseMAC sta.Mac with
    | error e => rw [stationUnmarshal_mac_error sta none e ha hm]; rfl
    | ok mac => rw [stationUnmarshal_ok sta none mac ha hm]; rfl
  · intro sta e h1 h2
    exact stationUnmarshal_ap_error sta e (apMACStep_error sta e h1 h2)

/-- Concrete station wire objects for the C6 witness. -/
def c6sta : station := { ApMac := "", Mac := "de:ad:be:ef:de:ad" }

/-- Station wire object with a non-empty malformed associated-AP
MAC. -/
def c6bad : station := { ApMac := "zz", Mac := "de:ad:be:ef:de:ad" }

/-- C6 witness: the three parts of the theorem applied at concrete
inputs. -/
theorem C6_station_empty_apmac_tolerated_witness :
    (stationAssemble c6sta none [0xde, 0xad, 0xbe, 0xef, 0xde, 0xad]).APMAC = none
    ∧ (stationUnmarshal c6sta).isOk = (goParseMAC c6sta.Mac).isOk
    ∧ stationUnmarshal c6bad = Except.error ⟨"invalid MAC address", "zz"⟩ :=
  ⟨C6_station_empty_apmac_tolerated.1 c6sta _ rfl (by decide),
   C6_station_empty_apmac_tolerated.2.1 c6sta rfl,
   C6_station_empty_apmac_tolerated.2.2 c6bad ⟨"invalid MAC address", "zz"⟩
     (by decide) (by decide)⟩

/-- Station wire object whose `mac` is uppercase colon-separated
hex. -/
def c8sta : station := { Mac := "AB:AD:1D:EA:AB:AD" }

/-- Station wire object whose `mac` is hyphen-separated hex. -/
def c8sta2 : station := { Mac := "ab-ad-1d-ea-ab-ad" }

/-- C8 counterexample: the claim says any `mac` that is not valid
lowercase colon-separated hex — for example uppercase hex digits or
hyphen-separated groups — makes Station decode fail.  Go's
`net.ParseMAC` accepts both of those example forms, so decode
succeeds on them. -/
theorem C8_station_mac_formats_counterexample :
    goParseMAC "AB:AD:1D:EA:AB:AD" = Except.ok [0xab, 0xad, 0x1d, 0xea, 0xab, 0xad]
    ∧ (stationUnmarshal c8sta).isOk = true
    ∧ goParseMAC "ab-ad-1d-ea-ab-ad" = Except.ok [0xab, 0xad, 0x1d, 0xea, 0xab, 0xad]
    ∧ (stationUnmarshal c8sta2).isOk = true := by decide

/-- C8 amended: Station decode fails whenever the mandatory `mac`
value is rejected by `net.ParseMAC` (the parser of every MAC field);
the rejected set is everything outside ParseMAC's accepted grammar,
which also admits uppercase hex and hyphen- or dot-separated groups,
not only lowercase colon-separated hex. -/
theorem C8_station_invalid_mac_fatal (sta : station) (e : AddrError)
    (h : goParseMAC sta.Mac = Except.error e) :
    (stationUnmarshal sta).isOk = false := by
  cases ha : apMACStep sta with
  | error e2 => rw [stationUnmarshal_ap_error sta e2 ha]; rfl
  | ok apm => rw [stationUnmarshal_mac_error sta apm e ha h]; rfl

/-- Station wire object with a `mac` rejected by `net.ParseMAC`. -/
def c8bad : station := { Mac := "foo" }

/-- C8 witness: the amended theorem applied at `c8bad`. -/
theorem C8_station_invalid_mac_fatal_witness :
    (stationUnmarshal c8bad).isOk = false :=
  C8_station_invalid_mac_fatal c8bad ⟨"invalid MAC address", "foo"⟩ (by decide)

/-- The C9 scenario wire object. -/
def c9sta : station :=
  { ID := "x", ApMac := "de:ad:be:ef:de:ad", IP := "192.168.1.2",
    Mac := "ab:ad:1d:ea:ab:ad", SiteID := "default" }

/-- The Station produced for `c9sta`: parsed addresses, zero-valued
statistics, epoch-zero timestamps, everything else the zero value. -/
def c9out : Station :=
  { ID := "x"
    APMAC := some [0xde, 0xad, 0xbe, 0xef, 0xde, 0xad]
    IP := some (v4InV6Prefix ++ [192, 168, 1, 2])
    MAC := [0xab, 0xad, 0x1d, 0xea, 0xab, 0xad]
    SiteID := "default" }

/-- C9: the round-trip scenario — decoding the given wire object
succeeds and yields a Station whose MAC, APMAC, IP and SiteID equal
the parsed wire values, whose numeric statistics are all zero and
whose association/first-seen/last-seen timestamps are the UTC epoch;
in general `time.Unix n 0` is the instant `n` seconds after the
epoch. -/
theorem C9_station_roundtrip :
    stationUnmarshal c9sta = Except.ok c9out
    ∧ c9out.MAC = [0xab, 0xad, 0x1d, 0xea, 0xab, 0xad]
    ∧ c9out.APMAC = some [0xde, 0xad, 0xbe, 0xef, 0xde, 0xad]
    ∧ c9out.IP = some (v4InV6Prefix ++ [192, 168, 1, 2])
    ∧ c9out.SiteID = "default"
    ∧ c9out.Stats = ({} : StationStats)
    ∧ c9out.AssociationTime = ⟨0, 0⟩ ∧ c9out.FirstSeen = ⟨0, 0⟩
    ∧ c9out.LastSeen = ⟨0, 0⟩
    ∧ (∀ n : Int, timeUnix n 0 = ⟨n, 0⟩) := by
  refine ⟨by decide, by decide, by decide, by decide, by decide,
          by decide, by decide, by decide, by decide, ?_⟩
  intro n
  unfold timeUnix
  norm_num

/-- C2: in Device decode, station-count statistics are attached to a
radio exactly when some `radio_table_stats` row has a name equal to
that radio's name (no match leaves `Stats` as `nil`, never a
zero-valued placeholder), and the decoded radio list is precisely the
`radio_table` mapped through the loop body — so a statistics row whose
name matches no radio creates no radio and is attached to none. -/
theorem C2_radio_stats_join :
    (∀ (stats : List radioStatRow) (rt : radioRow),
        ((buildRadio stats rt).Stats).isSome = true ↔ ∃ v ∈ stats, v.Name = rt.Name)
    ∧ (∀ (dev : device) (d : Device), deviceUnmarshal dev = Except.ok d →
        d.Radios = some (dev.RadioTable.map (buildRadio dev.RadioTableStats))) := by
  constructor
  · intro stats rt
    rw [buildRadio_Stats]
    have hiff := lastMatching_isSome_iff rt.Name stats
    cases hl : lastMatching rt.Name stats with
    | none => rw [hl] at hiff; simpa using hiff
    | some w => rw [hl] at hiff; simpa using hiff
  · intro dev d h
    obtain ⟨sys, ip, u, nics, _, _, _, _, hd⟩ := deviceUnmarshal_ok_inv dev d h
    subst hd
    rfl

/-- Device wire object for the C2 witness: one radio, one matching
statistics row. -/
def c2wdev : device :=
  { InformIP := "192.168.1.1"
    RadioTable := [{ Name := "wlan0", Radio := "ng" }]
    RadioTableStats := [{ GuestNumSta := 1, Name := "wlan0", NumSta := 3, UserNumSta := 2 }] }

/-- The Device produced for `c2wdev`. -/
def c2wout : Device :=
  { InformIP := v4InV6Prefix ++ [192, 168, 1, 1]
    NICs := some []
    Radios := some [{ BuiltInAntenna := false, BuiltInAntennaGain := 0, MaxTXPower := 0,
                      MinTXPower := 0, Name := "wlan0", Radio := "2.4GHz",
                      Stats := some { NumberStations := 3, NumberGuestStations := 1,
                                      NumberUserStations := 2 } }] }

/-- C2 witness: both parts of the theorem applied at concrete
inputs. -/
theorem C2_radio_stats_join_witness :
    ((buildRadio c2wdev.RadioTableStats { Name := "wlan0", Radio := "ng" }).Stats).isSome = true
    ∧ c2wout.Radios = some (c2wdev.RadioTable.map (buildRadio c2wdev.RadioTableStats)) :=
  ⟨(C2_radio_stats_join.1 c2wdev.RadioTableStats { Name := "wlan0", Radio := "ng" }).mpr
     ⟨{ GuestNumSta := 1, Name := "wlan0", NumSta := 3, UserNumSta := 2 },
      by simp [c2wdev], rfl⟩,
   C2_radio_stats_join.2 c2wdev c2wout (by decide)⟩

/-- C3: the raw radio code `na` maps to the band label `5GHz` and `ng`
to `2.4GHz`; any other code leaves the band blank (`""`), and the
radio table never influences whether the whole decode succeeds —
replacing it by any table (in particular one with unknown codes)
preserves success. -/
theorem C3_radio_band_classification :
    (∀ (stats : List radioStatRow) (rt : radioRow),
        (buildRadio stats rt).Radio =
          if rt.Radio = "na" then "5GHz" else if rt.Radio = "ng" then "2.4GHz" else "")
    ∧ (∀ (dev : device) (rts : List radioRow),
        (deviceUnmarshal dev).isOk = true →
          (deviceUnmarshal { dev with RadioTable := rts }).isOk = true) := by
  constructor
  · exact buildRadio_Radio
  · intro dev rts h
    rw [deviceUnmarshal_radioTable_irrelevant]
    exact h

/-- Base device wire object for the C3 witness. -/
def c3wbase : device := { InformIP := "192.168.1.1" }

/-- C3 witness: an unrecognized code (`"xx"`) yields a blank band, and
decode still succeeds with such a radio table present. -/
theorem C3_radio_band_classification_witness :
    (buildRadio [] { Name := "wlan9", Radio := "xx" }).Radio = ""
    ∧ (deviceUnmarshal
        { c3wbase with RadioTable := [{ Name := "wlan9", Radio := "xx" }] }).isOk = true :=
  ⟨(C3_radio_band_classification.1 [] { Name := "wlan9", Radio := "xx" }).trans rfl,
   C3_radio_band_classification.2 c3wbase [{ Name := "wlan9", Radio := "xx" }] (by decide)⟩

/-- Device wire object for C4: invalid `inform_ip` and a non-numeric
`,string` statistics field at the same time. -/
def c4dev : device := { InformIP := "foo", SystemStats := { cpu := some "bar" } }

/-- C4 counterexample: the claim says that when both the inform IP is
invalid and a numeric-as-string statistics field is non-numeric, the
reported error is the inform-IP failure.  In the code the `,string`
fields are converted inside the initial `json.Unmarshal`, which runs
before the inform-IP check, so the reported error is the
numeric-string unmarshal failure. -/
theorem C4_error_order_counterexample :
    goParseIP c4dev.InformIP = none
    ∧ jsonStringFloat "bar" = none
    ∧ deviceUnmarshal c4dev = Except.error (DeviceDecodeErr.numericString "cpu" "bar")
    ∧ deviceUnmarshal c4dev ≠ Except.error (DeviceDecodeErr.informIP "foo") := by decide

/-- C4 amended: the numeric-as-string statistics fields are parsed
during the initial raw unmarshal, before inform-IP validation; hence
for every device wire object whose `,string` conversion fails — even
one whose `inform_ip` is also invalid — the reported error is that
numeric-string failure, never the inform-IP failure. -/
theorem C4_string_stats_parsed_before_inform_ip (dev : device) (e : DeviceDecodeErr)
    (h : decodeSystemStats dev = Except.error e) :
    deviceUnmarshal dev = Except.error e
    ∧ ∃ f r, e = DeviceDecodeErr.numericString f r :=
  ⟨deviceUnmarshal_string_error dev e h, decodeSystemStats_error_shape dev e h⟩

/-- C4 witness: the amended theorem applied at `c4dev`. -/
theorem C4_string_stats_parsed_before_inform_ip_witness :
    deviceUnmarshal c4dev = Except.error (DeviceDecodeErr.numericString "cpu" "bar")
    ∧ ∃ f r, DeviceDecodeErr.numericString "cpu" "bar" = DeviceDecodeErr.numericString f r :=
  C4_string_stats_parsed_before_inform_ip c4dev
    (DeviceDecodeErr.numericString "cpu" "bar") (by decide)

/-- C7: whenever Device decode succeeds, the NICs and Radios fields
are non-`nil` slices whose lengths match the corresponding wire
tables; when a wire table is empty (or missing — absent JSON keys
leave the zero-value empty table), the collection is the empty
non-`nil` slice, never an absent one. -/
theorem C7_collections_initialized (dev : device) (d : Device)
    (h : deviceUnmarshal dev = Except.ok d) :
    (∃ l, d.NICs = some l ∧ l.length = dev.EthernetTable.length)
    ∧ (∃ l, d.Radios = some l ∧ l.length = dev.RadioTable.length)
    ∧ (dev.EthernetTable = [] → d.NICs = some [])
    ∧ (dev.RadioTable = [] → d.Radios = some []) := by
  obtain ⟨sys, ip, u, nics, hs, hip, hu, hn, hd⟩ := deviceUnmarshal_ok_inv dev d h
  subst hd
  refine ⟨⟨nics, rfl, buildNICs_length _ _ hn⟩,
          ⟨dev.RadioTable.map (buildRadio dev.RadioTableStats), rfl, List.length_map _ _⟩,
          ?_, ?_⟩
  · intro he
    rw [he] at hn
    have h0 : buildNICs [] = Except.ok ([] : List NIC) := rfl
    rw [h0] at hn
    have : ([] : List NIC) = nics := Except.ok.inj hn
    show some nics = some []
    rw [← this]
  · intro hr
    show some (dev.RadioTable.map (buildRadio dev.RadioTableStats)) = some []
    rw [hr]
    rfl

/-- Device wire object for the C7 witness: empty/missing tables. -/
def c7dev : device := { InformIP := "192.168.1.1" }

/-- The Device produced for `c7dev`: both collections are present and
empty. -/
def c7out : Device :=
  { InformIP := v4InV6Prefix ++ [192, 168, 1, 1]
    NICs := some []
    Radios := some [] }

/-- C7 witness: the theorem applied at `c7dev`. -/
theorem C7_collections_initialized_witness :
    (∃ l, c7out.NICs = some l ∧ l.length = c7dev.EthernetTable.length)
    ∧ (∃ l, c7out.Radios = some l ∧ l.length = c7dev.RadioTable.length)
    ∧ (c7dev.EthernetTable = [] → c7out.NICs = some [])
    ∧ (c7dev.RadioTable = [] → c7out.Radios = some []) :=
  C7_collections_initialized c7dev c7out (by decide)

/-- An earlier statistics row sharing the radio name of a later one
(C10). -/
def c10row1 : radioStatRow :=
  { GuestNumSta := 1, Name := "wlan1", NumSta := 3, UserNumSta := 2 }

/-- A later statistics row with the same name and different counts
(C10). -/
def c10row2 : radioStatRow :=
  { GuestNumSta := 100, Name := "wlan1", NumSta := 300, UserNumSta := 200 }

/-- C10: when several `radio_table_stats` rows share a radio's name,
the radio's attached statistics are those of the last matching row in
wire-table order — each later match overwrites the earlier one; at
the concrete two-row input the second row's counts win. -/
theorem C10_last_match_wins :
    (∀ (stats : List radioStatRow) (rt : radioRow),
        (buildRadio stats rt).Stats = (lastMatching rt.Name stats).map radioStatsOf)
    ∧ (buildRadio [c10row1, c10row2] { Name := "wlan1", Radio := "na" }).Stats =
        some (radioStatsOf c10row2) :=
  ⟨buildRadio_Stats, by decide⟩
